import Mathlib

/-!
Shallow embedding of the perception-toolkit stream-capture element
(`src/elements/stream-capture/stream-capture.ts`) and of the barcode
detection wrapper (`barcode.js`), together with theorems checking the
repository's specification against the code.

Conventions of the embedding:
* DOM timestamps (`DOMHighResTimeStamp`, in milliseconds) are rationals.
* `captureScale` is a rational (the code uses JS numbers such as `0.5`).
* Canvas pixel contents are abstracted to a `Nat` token: `drawImage`
  replaces the token, `getImageData` and `toDataURL` read it.
* Thrown JS errors are modelled by an `Option String` component of the
  result (the state component is the state at the moment of the throw,
  matching JS semantics where mutations before a `throw` persist).
* Fired custom events and other externally visible actions are returned
  as explicit event/effect lists.
-/

/-- Names of the custom events fired by the stream-capture element
(`captureStarted`, `captureStopped`, `captureClosed`, `captureFrame`
from `events.js`). -/
inductive EventName where
  | captureStarted
  | captureStopped
  | captureClosed
  | frameCaptured
  deriving DecidableEq

/-- A media stream: its list of track identifiers
(`MediaStream.getTracks`). -/
structure MediaStream where
  tracks : List Nat
  deriving DecidableEq

/-- The element's backing `<canvas>`: its `width`/`height` attributes and
an abstract token for its current pixel contents. -/
structure Canvas where
  width : ℚ
  height : ℚ
  content : Nat
  deriving DecidableEq

/-- A fresh canvas as produced by `document.createElement('canvas')`
(default 300×150, blank). -/
def freshCanvas : Canvas := { width := 300, height := 150, content := 0 }

/-- The element's `<video>`: its intrinsic dimensions and the properties
the element sets on it in `start`. -/
structure Video where
  videoWidth : Nat
  videoHeight : Nat
  muted : Bool
  playsinline : Bool
  srcObject : Option MediaStream
  deriving DecidableEq

/-- A fresh video element as produced by
`document.createElement('video')`. -/
def freshVideo : Video :=
  { videoWidth := 0, videoHeight := 0, muted := false,
    playsinline := false, srcObject := none }

/-- The result of `CanvasRenderingContext2D.getImageData(x, y, w, h)`:
the requested rectangle plus the canvas's pixel token. -/
structure ImageData where
  x : ℚ
  y : ℚ
  w : ℚ
  h : ℚ
  data : Nat
  deriving DecidableEq

/-- `getImageData` on the modelled canvas. -/
def getImageData (c : Canvas) (x y w h : ℚ) : ImageData :=
  { x := x, y := y, w := w, h := h, data := c.content }

/-- `HTMLCanvasElement.toDataURL(mime)`: a data URL encoding the canvas's
current pixels. -/
def Canvas.toDataURL (c : Canvas) (mime : String) : String :=
  "data:" ++ mime ++ ";base64," ++ toString c.content

/-- An `HTMLImageElement` as produced in `captureFrame` when
`capturePng` is set: only its `src` matters to the element. -/
structure HTMLImage where
  src : String
  deriving DecidableEq

/-- What a `captureFrame` promise resolves to: `ImageData` or an
`HTMLImageElement`. -/
inductive CaptureResult where
  | imageData (d : ImageData)
  | image (img : HTMLImage)
  deriving DecidableEq

/-- Modelled from the spec: `clamp` from `src/utils/clamp.js` is not part
of the provided sources; the spec's note that the capture scale is
"clamped only to 0" and the call `clamp(this.captureScale, 0)` indicate a
lower-bound clamp. -/
def clamp (value lo : ℚ) : ℚ := max value lo

/-- The state of a `StreamCapture` element: its public configuration
fields and its private `video` / `stream` / `canvas` / `ctx` /
`lastCapture` fields.  The 2D context is `Option Unit`: only its
presence (non-`null`, non-`undefined`) matters. -/
structure StreamCapture where
  captureScale : ℚ
  captureRate : ℚ
  capturePng : Bool
  flipped : Bool
  paused : Bool
  video : Option Video
  stream : Option MediaStream
  canvas : Option Canvas
  ctx : Option Unit
  lastCapture : ℚ
  reticleVertical : Option Bool
  deriving DecidableEq

/-- A `StreamCapture` as field-initialized by the class (`captureScale =
1`, `captureRate = 0`, `capturePng = false`, `flipped = false`,
`paused = false`, `lastCapture = -1`, private element references
unset). -/
def StreamCapture.new : StreamCapture :=
  { captureScale := 1, captureRate := 0, capturePng := false,
    flipped := false, paused := false, video := none, stream := none,
    canvas := none, ctx := none, lastCapture := -1,
    reticleVertical := none }

/-- `StreamCapture.captureFrame`: rejects (`'Unable to capture frame'`)
when `ctx` or `canvas` is unset; otherwise resolves to a PNG image
(`capturePng` true) or to `getImageData(0, 0, canvas.width,
canvas.height)`, firing the frame-captured event first when
`captureRate` is non-zero. -/
def captureFrameResult (s : StreamCapture) :
    Except String (CaptureResult × List EventName) :=
  match s.ctx, s.canvas with
  | some _, some c =>
    let evs := if s.captureRate ≠ 0 then [EventName.frameCaptured] else []
    if s.capturePng then
      .ok (.image { src := c.toDataURL "image/png" }, evs)
    else
      .ok (.imageData (getImageData c 0 0 c.width c.height), evs)
  | _, _ => .error "Unable to capture frame"

/-- One animation-frame tick of the `update` closure created in
`StreamCapture.start` (lines 130–146): bail out when `video` or `ctx`
is gone; otherwise draw the current video frame (abstracted to the pixel
token `framePix`) unless paused, and when `captureRate` is non-zero and
`now - lastCapture` strictly exceeds it, record `now` in `lastCapture`
and invoke `captureFrame` (whose rejection the loop ignores). -/
def updateTick (framePix : Nat) (s : StreamCapture) (now : ℚ) :
    StreamCapture × List EventName :=
  match s.video, s.ctx with
  | some _, some _ =>
    let s₁ :=
      if s.paused then s
      else
        match s.canvas with
        | some c => { s with canvas := some { c with content := framePix } }
        | none => s
    if s.captureRate ≠ 0 ∧ now - s.lastCapture > s.captureRate then
      let s₂ := { s₁ with lastCapture := now }
      match captureFrameResult s₂ with
      | .ok (_, evs) => (s₂, evs)
      | .error _ => (s₂, [])
    else (s₁, [])
  | _, _ => (s, [])

/-- Run the sampling loop over a list of animation-frame timestamps,
collecting each tick's fired events. -/
def runTicks (framePix : Nat) (s : StreamCapture) :
    List ℚ → StreamCapture × List (ℚ × List EventName)
  | [] => (s, [])
  | t :: ts =>
    let r := updateTick framePix s t
    let rest := runTicks framePix r.1 ts
    (rest.1, (t, r.2) :: rest.2)

/-- The timestamps of the ticks on which the loop emitted at least one
event (all loop events are frame-captured events). -/
def runEmits (framePix : Nat) (s : StreamCapture) (ts : List ℚ) : List ℚ :=
  (((runTicks framePix s ts).2.filter fun p => ! p.2.isEmpty).map Prod.fst)

/-- `initElementsIfNecessary`: create the canvas and its 2D context when
absent (throwing `'Unable to create canvas context'` when `getContext`
returns `null` — the `ctx2d` flag), then create the video element when
absent. -/
def initElementsIfNecessary (ctx2d : Bool) (s : StreamCapture) :
    StreamCapture × Option String :=
  let step :=
    match s.canvas with
    | none =>
      if ctx2d then
        ({ s with canvas := some freshCanvas, ctx := some () },
         (none : Option String))
      else
        ({ s with canvas := some freshCanvas, ctx := none },
         some "Unable to create canvas context")
    | some _ => (s, none)
  match step.2 with
  | some e => (step.1, some e)
  | none =>
    match step.1.video with
    | none => ({ step.1 with video := some freshVideo }, none)
    | some _ => (step.1, none)

/-- The synchronous part of `StreamCapture.start`: throw when a stream is
already set, store the stream, initialize the elements, and configure the
video (`playsinline`, `muted`, `srcObject`) before playing it.  The
`playing` handler it registers is modelled separately by
`playingHandler`. -/
def start (ctx2d : Bool) (s : StreamCapture) (stream : MediaStream) :
    StreamCapture × Option String :=
  if s.stream.isSome then
    (s, some "Stream already provided. Stop the capture first.")
  else
    let s₁ := { s with stream := some stream }
    let init := initElementsIfNecessary ctx2d s₁
    match init.2 with
    | some e => (init.1, some e)
    | none =>
      match init.1.video with
      | some v =>
        ({ init.1 with
            video := some { v with playsinline := true, muted := true,
                                   srcObject := some stream } }, none)
      | none => (init.1, some "TypeError")

/-- The dimension-wait loop of the `playing` handler: `fuel` models the
remaining `frameCount` and `i` indexes the animation frames awaited so
far; `dims i` is the video's `(videoWidth, videoHeight)` observed after
awaiting the `i`-th frame.  Returns the number of frames awaited. -/
def waitGo (dims : Nat → Nat × Nat) (fuel i : Nat) : Nat :=
  if h : 0 < fuel - 1 ∧ ((dims i).1 = 0 ∨ (dims i).2 = 0) then
    waitGo dims (fuel - 1) (i + 1)
  else
    i + 1
termination_by fuel
decreasing_by omega

/-- The number of animation frames the `playing` handler awaits before
checking the video dimensions (`frameCount` starts at 5). -/
def waitFrames (dims : Nat → Nat × Nat) : Nat := waitGo dims 5 0

/-- The `playing` event handler registered by `start` (lines 153–191):
bail out when `video`, `canvas` or `ctx` is gone; await up to five frames
for the video dimensions; throw `'Video has width or height of 0'` when a
dimension is still zero; otherwise size the canvas to `videoWidth *
captureScale` × `videoHeight * captureScale` (the unclamped field),
orient the reticle, and apply the flipped style.  The animation-frame
callback it then schedules is `startedCallback`. -/
def playingHandler (dims : Nat → Nat × Nat) (s : StreamCapture) :
    StreamCapture × Option String :=
  match s.video, s.canvas, s.ctx with
  | some v, some c, some _ =>
    let k := waitFrames dims
    let w := (dims (k - 1)).1
    let h := (dims (k - 1)).2
    if w = 0 ∨ h = 0 then
      (s, some "Video has width or height of 0")
    else
      let c' := { c with width := (w : ℚ) * s.captureScale,
                         height := (h : ℚ) * s.captureScale }
      ({ s with
          video := some { v with videoWidth := w, videoHeight := h },
          canvas := some c',
          reticleVertical := some (decide (c'.width < c'.height)) }, none)
  | _, _, _ => (s, none)

/-- The animation-frame callback scheduled at the end of the `playing`
handler: run one `update` tick, then fire the capture-started event. -/
def startedCallback (framePix : Nat) (s : StreamCapture) (now : ℚ) :
    StreamCapture × List EventName :=
  let r := updateTick framePix s now
  (r.1, r.2 ++ [EventName.captureStarted])

/-- Externally visible actions of `StreamCapture.stop`. -/
inductive StopEffect where
  | trackStop (id : Nat)
  | clearRect (x y w h : ℚ)
  | canvasRemove
  | fire (e : EventName)
  deriving DecidableEq

/-- `StreamCapture.stop`: a no-op when `stream`, `ctx` or `canvas` is
unset; otherwise stop every stream track, clear the full canvas
rectangle, remove the canvas, reset the four element references, and
fire the capture-stopped event. -/
def stop (s : StreamCapture) : StreamCapture × List StopEffect :=
  match s.stream, s.ctx, s.canvas with
  | some m, some _, some c =>
    ({ s with video := none, stream := none, canvas := none, ctx := none },
     (m.tracks.map StopEffect.trackStop) ++
       [StopEffect.clearRect 0 0 c.width c.height,
        StopEffect.canvasRemove,
        StopEffect.fire EventName.captureStopped])
  | _, _, _ => (s, [])

/-- `disconnectedCallback` delegates to `stop`. -/
def disconnectedCallback (s : StreamCapture) :
    StreamCapture × List StopEffect := stop s

/-!
Barcode detection wrapper (`barcode.js`).  The module-level `detector`
memo is modelled by `DetectState`: the memoized instance (identified by
a construction counter) and the next fresh identifier.
-/

/-- The barcode module's mutable state: the memoized `detector` and a
counter supplying fresh instance identifiers for `new
context.BarcodeDetector()`. -/
structure DetectState where
  detector : Option Nat
  nextId : Nat
  deriving DecidableEq

/-- The barcode module's state at load time (`let detector;`). -/
def detectInit : DetectState := { detector := none, nextId := 0 }

/-- Externally visible actions of a `detect` call. -/
inductive DetectEffect where
  | logWarning (msg : String)
  | injectScript (src : String)
  | construct (id : Nat)
  | awaitIsReady (id : Nat)
  deriving DecidableEq

/-- The inputs of one `detect` call: its options, the environment
(`'BarcodeDetector' in context`, `'isReady' in detector`), and what the
underlying `detector.detect(data)` promise does (`outcome`), with
detected barcodes abstracted to `Nat` identifiers. -/
structure DetectCall where
  contextIsWindow : Bool
  nativeAvailable : Bool
  forceNewDetector : Bool
  polyfillBase : String
  hasIsReady : Bool
  outcome : Except String (List Nat)

/-- A `detect` call's outward behaviour: the resolved result, the
identifier of the detector instance used, the module state afterwards,
and the effects performed. -/
structure DetectOut where
  result : List Nat
  used : Nat
  state : DetectState
  effects : List DetectEffect
  deriving DecidableEq

/-- The `detect` function of `barcode.js`: load the polyfill when the
context is the window and lacks a native `BarcodeDetector`; construct a
new detector when none is memoized or `forceNewDetector` is set; await
its readiness when it exposes `isReady`; resolve to the detection result,
or — when the underlying detect rejects — log a warning and resolve to
the empty list. -/
def detect (call : DetectCall) (st : DetectState) : DetectOut :=
  let effs₀ :=
    if call.contextIsWindow ∧ ¬ call.nativeAvailable then
      [DetectEffect.logWarning "Native barcode detector unavailable",
       DetectEffect.injectScript
         (call.polyfillBase ++ "/lib/polyfills/barcode-detector.js")]
    else []
  let build :=
    match st.detector with
    | some d =>
      if call.forceNewDetector then
        (st.nextId,
         ({ detector := some st.nextId, nextId := st.nextId + 1 } : DetectState),
         [DetectEffect.construct st.nextId])
      else (d, st, [])
    | none =>
      (st.nextId,
       ({ detector := some st.nextId, nextId := st.nextId + 1 } : DetectState),
       [DetectEffect.construct st.nextId])
  let used := build.1
  let st₁ := build.2.1
  let effs₁ := build.2.2
  let effs₂ := if call.hasIsReady then [DetectEffect.awaitIsReady used] else []
  match call.outcome with
  | .ok r =>
    { result := r, used := used, state := st₁,
      effects := effs₀ ++ effs₁ ++ effs₂ }
  | .error e =>
    { result := [], used := used, state := st₁,
      effects := effs₀ ++ effs₁ ++ effs₂ ++
        [DetectEffect.logWarning ("Detection failed: " ++ e)] }

/-- Run a sequence of `detect` calls, threading the module state. -/
def detectRun (st : DetectState) :
    List DetectCall → DetectState × List DetectOut
  | [] => (st, [])
  | c :: cs =>
    let o := detect c st
    let rest := detectRun o.state cs
    (rest.1, o :: rest.2)

/-- Whether a `detect` effect is the construction of a detector. -/
def DetectEffect.isConstruct : DetectEffect → Bool
  | .construct _ => true
  | _ => false

/-- How many detector instances a `detect` call constructed. -/
def DetectOut.constructCount (o : DetectOut) : Nat :=
  o.effects.countP DetectEffect.isConstruct

/-!
Concrete states used by the witness theorems.
-/

/-- A stream-capture element mid-capture: video, stream, canvas and
context all present. -/
def demoLive : StreamCapture :=
  { captureScale := 1, captureRate := 250, capturePng := false,
    flipped := false, paused := false, video := some freshVideo,
    stream := some { tracks := [3, 4] }, canvas := some freshCanvas,
    ctx := some (), lastCapture := -1, reticleVertical := none }

/-- A `detect` call whose underlying detector rejects. -/
def demoFailingCall : DetectCall :=
  { contextIsWindow := true, nativeAvailable := true,
    forceNewDetector := false, polyfillBase := "", hasIsReady := false,
    outcome := .error "boom" }

/-!
Helper lemmas shared by the claim theorems.
-/

/-- Computation of `stop` on a state with stream, context and canvas all
present. -/
lemma helper_stop_some (s : StreamCapture) (m : MediaStream) (c : Canvas)
    (hm : s.stream = some m) (hx : s.ctx = some ()) (hc : s.canvas = some c) :
    stop s =
      ({ s with video := none, stream := none, canvas := none, ctx := none },
       (m.tracks.map StopEffect.trackStop) ++
         [StopEffect.clearRect 0 0 c.width c.height,
          StopEffect.canvasRemove,
          StopEffect.fire EventName.captureStopped]) := by
  simp [stop, hm, hx, hc]

/-- `stop` is the identity when the stream, the context or the canvas is
unset. -/
lemma helper_stop_noop (s : StreamCapture)
    (h : s.stream = none ∨ s.ctx = none ∨ s.canvas = none) :
    stop s = (s, []) := by
  rcases h1 : s.stream with _ | m
  · simp [stop, h1]
  · rcases h2 : s.ctx with _ | u
    · simp [stop, h1, h2]
    · rcases h3 : s.canvas with _ | c
      · simp [stop, h1, h2, h3]
      · rcases h with h | h | h <;> simp_all

/-- A successful `start` (with a working 2D context) from a state
satisfying the reachability invariant leaves the stream, canvas, context
and video all set. -/
lemma helper_start_ok (s : StreamCapture) (m : MediaStream)
    (h0 : s.stream = none) (hinv : s.canvas.isSome → s.ctx.isSome) :
    (start true s m).2 = none ∧
    (start true s m).1.stream = some m ∧
    (start true s m).1.ctx = some () ∧
    (start true s m).1.canvas.isSome ∧
    (start true s m).1.video.isSome := by
  rcases hcv : s.canvas with _ | c
  · rcases hv : s.video with _ | v <;>
      simp [start, initElementsIfNecessary, h0, hcv, hv]
  · have hctx : s.ctx.isSome := hinv (by simp [hcv])
    rcases hx : s.ctx with _ | u
    · rw [hx] at hctx; simp at hctx
    · rcases hv : s.video with _ | v <;>
        simp [start, initElementsIfNecessary, h0, hcv, hx, hv]

/-!
Claim theorems.
-/

/-- Claim C2: for every StreamCapture whose stream field is already set,
calling `start` with any stream throws `'Stream already provided. Stop
the capture first.'` and leaves the element's state unchanged. -/
theorem start_whenActive_throws (b : Bool) (s : StreamCapture)
    (m : MediaStream) (h : s.stream.isSome) :
    start b s m =
      (s, some "Stream already provided. Stop the capture first.") := by
  simp [start, h]

/-- Witness for C2 at a concrete mid-capture element. -/
theorem start_whenActive_throws_witness :
    demoLive.stream.isSome ∧
    start true demoLive { tracks := [9] } =
      (demoLive, some "Stream already provided. Stop the capture first.") :=
  ⟨rfl, start_whenActive_throws true demoLive { tracks := [9] } rfl⟩

/-- Claim C9: `stop` on a StreamCapture with no active stream (or no
canvas/context) is a no-op — no field changes, no track stops, no
capture-stopped event, no throw — so `disconnectedCallback` before any
capture is safe. -/
theorem stop_inactive_noop (s : StreamCapture)
    (h : s.stream = none ∨ s.ctx = none ∨ s.canvas = none) :
    stop s = (s, []) ∧ disconnectedCallback s = (s, []) := by
  have h' := helper_stop_noop s h
  exact ⟨h', by simpa [disconnectedCallback] using h'⟩

/-- Witness for C9 at a freshly constructed element. -/
theorem stop_inactive_noop_witness :
    StreamCapture.new.stream = none ∧
    (stop StreamCapture.new = (StreamCapture.new, []) ∧
     disconnectedCallback StreamCapture.new = (StreamCapture.new, [])) :=
  ⟨rfl, stop_inactive_noop StreamCapture.new (Or.inl rfl)⟩

/-- Claim C5: `stop` on a StreamCapture with an active stream and
initialized canvas/context stops every stream track, clears the full
canvas rectangle, resets `video`/`stream`/`canvas`/`ctx` to undefined,
and fires the capture-stopped event. -/
theorem stop_active_halts (s : StreamCapture) (m : MediaStream) (c : Canvas)
    (hm : s.stream = some m) (hx : s.ctx = some ()) (hc : s.canvas = some c) :
    stop s =
      ({ s with video := none, stream := none, canvas := none, ctx := none },
       (m.tracks.map StopEffect.trackStop) ++
         [StopEffect.clearRect 0 0 c.width c.height,
          StopEffect.canvasRemove,
          StopEffect.fire EventName.captureStopped]) :=
  helper_stop_some s m c hm hx hc

/-- Witness for C5 at a concrete mid-capture element. -/
theorem stop_active_halts_witness :
    demoLive.stream = some { tracks := [3, 4] } ∧ demoLive.ctx = some () ∧
    demoLive.canvas = some freshCanvas ∧
    stop demoLive =
      ({ demoLive with
          video := none, stream := none, canvas := none, ctx := none },
       ((({ tracks := [3, 4] } : MediaStream).tracks.map
           StopEffect.trackStop) ++
         [StopEffect.clearRect 0 0 freshCanvas.width freshCanvas.height,
          StopEffect.canvasRemove,
          StopEffect.fire EventName.captureStopped])) :=
  ⟨rfl, rfl, rfl,
   stop_active_halts demoLive { tracks := [3, 4] } freshCanvas rfl rfl rfl⟩

/-- Claim C4: with an initialized canvas and context, `captureFrame`
resolves to `getImageData(0, 0, canvas.width, canvas.height)` when
`capturePng` is false, and to an image whose `src` is the canvas's PNG
data URL when `capturePng` is true. -/
theorem captureFrame_contents (s : StreamCapture) (c : Canvas)
    (hx : s.ctx = some ()) (hc : s.canvas = some c) :
    captureFrameResult s = .ok
      ((if s.capturePng then
          CaptureResult.image { src := c.toDataURL "image/png" }
        else
          CaptureResult.imageData (getImageData c 0 0 c.width c.height)),
       if s.captureRate ≠ 0 then [EventName.frameCaptured] else []) := by
  simp only [captureFrameResult, hx, hc]
  split <;> rfl

/-- Witness for C4 at a concrete mid-capture element. -/
theorem captureFrame_contents_witness :
    demoLive.ctx = some () ∧ demoLive.canvas = some freshCanvas ∧
    captureFrameResult demoLive = .ok
      ((if demoLive.capturePng then
          CaptureResult.image { src := freshCanvas.toDataURL "image/png" }
        else
          CaptureResult.imageData
            (getImageData freshCanvas 0 0 freshCanvas.width
              freshCanvas.height)),
       if demoLive.captureRate ≠ 0 then [EventName.frameCaptured] else []) :=
  ⟨rfl, rfl, captureFrame_contents demoLive freshCanvas rfl rfl⟩

/-- Claim C7: whenever the underlying detector's detect call rejects, the
barcode `detect` wrapper resolves to the empty list. -/
theorem detect_rejection_empty (call : DetectCall) (st : DetectState)
    (e : String) (h : call.outcome = .error e) :
    (detect call st).result = [] := by
  simp [detect, h]

/-- Witness for C7 at a concrete failing call. -/
theorem detect_rejection_empty_witness :
    demoFailingCall.outcome = .error "boom" ∧
    (detect demoFailingCall detectInit).result = [] :=
  ⟨rfl, detect_rejection_empty demoFailingCall detectInit "boom" rfl⟩

/-- Claim C10: after a successful `start` followed by `stop`, the
element's `video`, `stream`, `canvas` and `ctx` fields are all undefined
again, so a subsequent `start` passes the already-started guard and does
not throw.  The hypothesis `hinv` is the reachability invariant that a
set canvas comes with a set context. -/
theorem start_stop_restartable (s s' : StreamCapture) (m m₂ : MediaStream)
    (hinv : s.canvas.isSome → s.ctx.isSome)
    (h : start true s m = (s', none)) :
    (stop s').1.video = none ∧ (stop s').1.stream = none ∧
    (stop s').1.canvas = none ∧ (stop s').1.ctx = none ∧
    (start true (stop s').1 m₂).2 = none := by
  have h0 : s.stream = none := by
    rcases hs : s.stream with _ | ms
    · rfl
    · have : start true s m = (s, some "Stream already provided. Stop the capture first.") := by
        simp [start, hs]
      rw [this] at h
      exact absurd (congrArg Prod.snd h) (by simp)
  have hok := helper_start_ok s m h0 hinv
  have h1 : (start true s m).1 = s' := by rw [h]
  rw [h1] at hok
  obtain ⟨-, hm', hx', hc', -⟩ := hok
  obtain ⟨c, hc⟩ := Option.isSome_iff_exists.mp hc'
  have hstop := helper_stop_some s' m c hm' hx' hc
  rw [hstop]
  refine ⟨rfl, rfl, rfl, rfl, ?_⟩
  exact (helper_start_ok _ m₂ rfl (fun habs => by simp at habs)).1

/-- The element state after a successful cold `start` with the stream
whose sole track is `5`. -/
def demoStarted : StreamCapture :=
  { captureScale := 1, captureRate := 0, capturePng := false,
    flipped := false, paused := false,
    video := some { videoWidth := 0, videoHeight := 0, muted := true,
                    playsinline := true,
                    srcObject := some { tracks := [5] } },
    stream := some { tracks := [5] }, canvas := some freshCanvas,
    ctx := some (), lastCapture := -1, reticleVertical := none }

/-- Witness for C10 at a fresh element. -/
theorem start_stop_restartable_witness :
    (StreamCapture.new.canvas.isSome → StreamCapture.new.ctx.isSome) ∧
    start true StreamCapture.new { tracks := [5] } = (demoStarted, none) ∧
    ((stop demoStarted).1.video = none ∧ (stop demoStarted).1.stream = none ∧
     (stop demoStarted).1.canvas = none ∧ (stop demoStarted).1.ctx = none ∧
     (start true (stop demoStarted).1 { tracks := [6] }).2 = none) :=
  And.intro (fun habs => nomatch habs) (And.intro rfl
    (start_stop_restartable StreamCapture.new demoStarted { tracks := [5] }
      { tracks := [6] } (fun habs => nomatch habs) rfl))

/-- The wait loop awaits at least one frame. -/
lemma helper_waitGo_ge (dims : Nat → Nat × Nat) :
    ∀ fuel i, i + 1 ≤ waitGo dims fuel i := by
  intro fuel
  induction fuel with
  | zero =>
    intro i
    unfold waitGo
    simp
  | succ n ih =>
    intro i
    unfold waitGo
    simp only [Nat.add_sub_cancel]
    split
    · have := ih (i + 1); omega
    · omega

/-- The wait loop awaits at most `fuel` frames. -/
lemma helper_waitGo_le (dims : Nat → Nat × Nat) :
    ∀ fuel i, 1 ≤ fuel → waitGo dims fuel i ≤ i + fuel := by
  intro fuel
  induction fuel with
  | zero => intro i h; omega
  | succ n ih =>
    intro i h
    unfold waitGo
    simp only [Nat.add_sub_cancel]
    split
    · next hcond =>
      have := ih (i + 1) (by omega)
      omega
    · omega

/-- The wait loop stops at the first frame on which both dimensions are
non-zero. -/
lemma helper_waitGo_early (dims : Nat → Nat × Nat) (j : Nat)
    (h1 : (dims j).1 ≠ 0) (h2 : (dims j).2 ≠ 0) :
    ∀ fuel i, i ≤ j → waitGo dims fuel i ≤ j + 1 := by
  intro fuel
  induction fuel with
  | zero =>
    intro i hij
    unfold waitGo
    simp
    omega
  | succ n ih =>
    intro i hij
    unfold waitGo
    simp only [Nat.add_sub_cancel]
    split
    · next hcond =>
      rcases Nat.lt_or_ge i j with hlt | hge
      · exact ih (i + 1) (by omega)
      · have hij' : i = j := by omega
        subst hij'
        rcases hcond.2 with hz | hz
        · exact absurd hz h1
        · exact absurd hz h2
    · omega

/-- Frames the wait loop moved past had a zero dimension. -/
lemma helper_waitGo_continue (dims : Nat → Nat × Nat) :
    ∀ fuel i j, i ≤ j → j + 1 < waitGo dims fuel i →
      (dims j).1 = 0 ∨ (dims j).2 = 0 := by
  intro fuel
  induction fuel with
  | zero =>
    intro i j hij h
    unfold waitGo at h
    simp at h
    omega
  | succ n ih =>
    intro i j hij h
    unfold waitGo at h
    simp only [Nat.add_sub_cancel] at h
    by_cases hcond : 0 < n ∧ ((dims i).1 = 0 ∨ (dims i).2 = 0)
    · rw [dif_pos hcond] at h
      rcases Nat.lt_or_ge i j with hlt | hge
      · exact ih (i + 1) j (by omega) h
      · have hij' : i = j := by omega
        subst hij'
        exact hcond.2
    · rw [dif_neg hcond] at h
      omega

/-- Claim C8: the dimension-wait loop of the `playing` handler awaits at
least one and at most 5 animation frames, exits as soon as both video
dimensions are non-zero (every frame it moves past has a zero
dimension), and the handler throws `'Video has width or height of 0'`
exactly when a dimension is still zero at loop exit. -/
theorem dimension_wait_bounded (dims : Nat → Nat × Nat) (s : StreamCapture)
    (v : Video) (c : Canvas) (hv : s.video = some v)
    (hc : s.canvas = some c) (hx : s.ctx = some ()) :
    1 ≤ waitFrames dims ∧ waitFrames dims ≤ 5 ∧
    (∀ j, (dims j).1 ≠ 0 → (dims j).2 ≠ 0 → waitFrames dims ≤ j + 1) ∧
    (∀ j, j + 1 < waitFrames dims → (dims j).1 = 0 ∨ (dims j).2 = 0) ∧
    ((playingHandler dims s).2 = some "Video has width or height of 0" ↔
      ((dims (waitFrames dims - 1)).1 = 0 ∨
       (dims (waitFrames dims - 1)).2 = 0)) := by
  refine ⟨helper_waitGo_ge dims 5 0, helper_waitGo_le dims 5 0 (by omega),
    ?_, ?_, ?_⟩
  · intro j hj1 hj2
    exact helper_waitGo_early dims j hj1 hj2 5 0 (Nat.zero_le j)
  · intro j hj
    exact helper_waitGo_continue dims 5 0 j (Nat.zero_le j) hj
  · simp only [playingHandler, hv, hc, hx]
    split
    · next hz => simpa using hz
    · next hz => simp [hz]

/-- The video dimensions used by the C8 and C3 witnesses. -/
def demoDims : Nat → Nat × Nat := fun _ => (2, 3)

/-- Witness for C8 at a concrete mid-capture element. -/
theorem dimension_wait_bounded_witness :
    demoLive.video = some freshVideo ∧ demoLive.canvas = some freshCanvas ∧
    demoLive.ctx = some () ∧
    (1 ≤ waitFrames demoDims ∧ waitFrames demoDims ≤ 5 ∧
     (∀ j, (demoDims j).1 ≠ 0 → (demoDims j).2 ≠ 0 →
        waitFrames demoDims ≤ j + 1) ∧
     (∀ j, j + 1 < waitFrames demoDims →
        (demoDims j).1 = 0 ∨ (demoDims j).2 = 0) ∧
     ((playingHandler demoDims demoLive).2 =
        some "Video has width or height of 0" ↔
       ((demoDims (waitFrames demoDims - 1)).1 = 0 ∨
        (demoDims (waitFrames demoDims - 1)).2 = 0))) :=
  And.intro rfl (And.intro rfl (And.intro rfl
    (dimension_wait_bounded demoDims demoLive freshVideo freshCanvas
      rfl rfl rfl)))

/-- Claim C3: once the `playing` handler observes non-zero video
dimensions, it sets the canvas dimensions to exactly `videoWidth *
captureScale` and `videoHeight * captureScale`, using the element's
(unclamped) `captureScale` field at that moment. -/
theorem canvas_sized_on_play (dims : Nat → Nat × Nat) (s : StreamCapture)
    (v : Video) (c : Canvas) (hv : s.video = some v)
    (hc : s.canvas = some c) (hx : s.ctx = some ())
    (hw : (dims (waitFrames dims - 1)).1 ≠ 0)
    (hh : (dims (waitFrames dims - 1)).2 ≠ 0) :
    (playingHandler dims s).2 = none ∧
    (playingHandler dims s).1.canvas = some
      { c with
          width := ((dims (waitFrames dims - 1)).1 : ℚ) * s.captureScale,
          height := ((dims (waitFrames dims - 1)).2 : ℚ) * s.captureScale } := by
  simp only [playingHandler, hv, hc, hx]
  split
  · next hz => exact absurd hz (not_or.mpr ⟨hw, hh⟩)
  · exact ⟨rfl, rfl⟩

/-- Witness for C3 at a concrete mid-capture element. -/
theorem canvas_sized_on_play_witness :
    demoLive.video = some freshVideo ∧ demoLive.canvas = some freshCanvas ∧
    demoLive.ctx = some () ∧
    (demoDims (waitFrames demoDims - 1)).1 ≠ 0 ∧
    (demoDims (waitFrames demoDims - 1)).2 ≠ 0 ∧
    ((playingHandler demoDims demoLive).2 = none ∧
     (playingHandler demoDims demoLive).1.canvas = some
       { freshCanvas with
           width := ((demoDims (waitFrames demoDims - 1)).1 : ℚ) *
             demoLive.captureScale,
           height := ((demoDims (waitFrames demoDims - 1)).2 : ℚ) *
             demoLive.captureScale }) :=
  And.intro rfl (And.intro rfl (And.intro rfl (And.intro (by decide)
    (And.intro (by decide)
      (canvas_sized_on_play demoDims demoLive freshVideo freshCanvas
        rfl rfl rfl (by decide) (by decide))))))

/-- Case analysis of one `update` tick: the capture rate and canvas
presence are preserved, and either no event fires and `lastCapture` is
unchanged, or exactly one frame-captured event fires, `lastCapture`
becomes the tick's timestamp, and the rate condition held. -/
lemma helper_tick_cases (fp : Nat) (s : StreamCapture) (t : ℚ)
    (h : s.canvas.isSome) :
    (updateTick fp s t).1.captureRate = s.captureRate ∧
    (updateTick fp s t).1.canvas.isSome ∧
    (((updateTick fp s t).2 = [] ∧
      (updateTick fp s t).1.lastCapture = s.lastCapture) ∨
     ((updateTick fp s t).2 = [EventName.frameCaptured] ∧
      (updateTick fp s t).1.lastCapture = t ∧
      s.captureRate ≠ 0 ∧ t - s.lastCapture > s.captureRate)) := by
  obtain ⟨c, hc⟩ := Option.isSome_iff_exists.mp h
  rcases hv : s.video with _ | v
  · simp [updateTick, hv, h]
  · rcases hx : s.ctx with _ | u
    · simp [updateTick, hv, hx, h]
    · by_cases hcond : s.captureRate ≠ 0 ∧ t - s.lastCapture > s.captureRate
      · by_cases hp : s.paused <;> by_cases hpng : s.capturePng <;>
          simp [updateTick, captureFrameResult, hv, hx, hc, hp, hpng,
            hcond, hcond.1, hcond.2]
      · by_cases hp : s.paused <;>
          simp [updateTick, hv, hx, hc, hp, hcond, h]

/-- With a zero capture rate, `captureFrame` fires no event. -/
lemma helper_captureFrame_rate0 (s : StreamCapture) (r : CaptureResult)
    (evs : List EventName) (h0 : s.captureRate = 0)
    (h : captureFrameResult s = .ok (r, evs)) : evs = [] := by
  rcases hx : s.ctx with _ | u <;> rcases hc : s.canvas with _ | c <;>
    by_cases hpng : s.capturePng <;>
    simp [captureFrameResult, hx, hc, h0, hpng] at h <;>
    simp [h.2]

/-- Unfolding of `runEmits` over one tick. -/
lemma helper_runEmits_cons (fp : Nat) (s : StreamCapture) (t : ℚ)
    (ts : List ℚ) :
    runEmits fp s (t :: ts) =
      if (updateTick fp s t).2.isEmpty then
        runEmits fp (updateTick fp s t).1 ts
      else t :: runEmits fp (updateTick fp s t).1 ts := by
  by_cases he : (updateTick fp s t).2.isEmpty <;>
    simp [runEmits, runTicks, he]

/-- Down a run of the sampling loop, consecutive emission timestamps are
separated by strictly more than the capture rate, and the first emission
exceeds the initial `lastCapture` by more than the rate. -/
lemma helper_chain (fp : Nat) :
    ∀ (ts : List ℚ) (s : StreamCapture), s.canvas.isSome →
      (∀ b ∈ (runEmits fp s ts).head?, s.captureRate < b - s.lastCapture) ∧
      List.Chain' (fun a b => s.captureRate < b - a) (runEmits fp s ts) := by
  intro ts
  induction ts with
  | nil =>
    intro s h
    simp [runEmits, runTicks]
  | cons t ts ih =>
    intro s h
    obtain ⟨hr, hcv, hdisj⟩ := helper_tick_cases fp s t h
    have ihh := ih (updateTick fp s t).1 hcv
    rw [hr] at ihh
    rw [helper_runEmits_cons]
    rcases hdisj with ⟨hemp, hlast⟩ | ⟨hone, hlast, hr0, hgt⟩
    · rw [if_pos (by simp [hemp])]
      rw [hlast] at ihh
      exact ihh
    · rw [if_neg (by simp [hone])]
      rw [hlast] at ihh
      constructor
      · intro b hb
        simp only [List.head?_cons, Option.mem_def, Option.some.injEq] at hb
        subst hb
        exact hgt
      · rw [List.chain'_cons']
        exact ⟨ihh.1, ihh.2⟩

/-- Claim C1: on every tick of the sampling loop, a frame-captured event
is emitted only if `captureRate` is non-zero and the elapsed time since
the last emission strictly exceeds `captureRate`; a zero `captureRate`
means no event is ever emitted, including from a manual `captureFrame`
call; after an emission `lastCapture` is the tick's timestamp; hence
over any run, consecutive emitted frame-capture events are separated by
strictly more than `captureRate` milliseconds. -/
theorem frame_capture_rate_limited (framePix : Nat) (s : StreamCapture)
    (now : ℚ) (ts : List ℚ) (h : s.canvas.isSome) :
    ((updateTick framePix s now).2 ≠ [] →
        s.captureRate ≠ 0 ∧ now - s.lastCapture > s.captureRate ∧
        (updateTick framePix s now).1.lastCapture = now) ∧
    (s.captureRate = 0 →
        (updateTick framePix s now).2 = [] ∧
        (∀ r evs, captureFrameResult s = .ok (r, evs) → evs = [])) ∧
    List.Chain' (fun a b => s.captureRate < b - a)
      (runEmits framePix s ts) := by
  obtain ⟨hr, hcv, hdisj⟩ := helper_tick_cases framePix s now h
  refine ⟨?_, ?_, (helper_chain framePix ts s h).2⟩
  · intro hne
    rcases hdisj with ⟨hemp, -⟩ | ⟨hone, hlast, hr0, hgt⟩
    · exact absurd hemp hne
    · exact ⟨hr0, hgt, hlast⟩
  · intro h0
    refine ⟨?_, fun r evs hok => helper_captureFrame_rate0 s r evs h0 hok⟩
    rcases hdisj with ⟨hemp, -⟩ | ⟨-, -, hr0, -⟩
    · exact hemp
    · exact absurd h0 hr0

/-- Witness for C1 at a concrete mid-capture element over a three-tick
run. -/
theorem frame_capture_rate_limited_witness :
    demoLive.canvas.isSome ∧
    (((updateTick 7 demoLive 0).2 ≠ [] →
        demoLive.captureRate ≠ 0 ∧
        (0 : ℚ) - demoLive.lastCapture > demoLive.captureRate ∧
        (updateTick 7 demoLive 0).1.lastCapture = 0) ∧
     (demoLive.captureRate = 0 →
        (updateTick 7 demoLive 0).2 = [] ∧
        (∀ r evs, captureFrameResult demoLive = .ok (r, evs) → evs = [])) ∧
     List.Chain' (fun a b => demoLive.captureRate < b - a)
       (runEmits 7 demoLive [0, 100, 400])) :=
  And.intro rfl (frame_capture_rate_limited 7 demoLive 0 [0, 100, 400] rfl)

/-- With a memoized detector and no force flag, `detect` reuses the
instance, preserves the module state, and constructs nothing. -/
lemma helper_detect_memo (c : DetectCall) (st : DetectState) (d : Nat)
    (hd : st.detector = some d) (hf : c.forceNewDetector = false) :
    (detect c st).used = d ∧ (detect c st).state = st ∧
    (detect c st).constructCount = 0 := by
  rcases ho : c.outcome with e | r <;>
    by_cases hw : c.contextIsWindow ∧ ¬ c.nativeAvailable <;>
    by_cases hir : c.hasIsReady <;>
    simp [detect, DetectOut.constructCount, DetectEffect.isConstruct,
      hd, hf, ho, hw, hir] <;>
    rintro a - - (rfl | rfl) <;> rfl

/-- With no memoized detector, or with the force flag, `detect`
constructs exactly one fresh instance and memoizes it. -/
lemma helper_detect_fresh (c : DetectCall) (st : DetectState)
    (h : st.detector = none ∨ c.forceNewDetector = true) :
    (detect c st).used = st.nextId ∧
    (detect c st).state =
      { detector := some st.nextId, nextId := st.nextId + 1 } ∧
    (detect c st).constructCount = 1 ∧
    DetectEffect.construct st.nextId ∈ (detect c st).effects := by
  rcases ho : c.outcome with e | r <;>
    by_cases hw : c.contextIsWindow ∧ ¬ c.nativeAvailable <;>
    by_cases hir : c.hasIsReady <;>
    rcases hd : st.detector with _ | d <;>
    rcases h with h | h <;>
    simp_all [detect, DetectOut.constructCount, DetectEffect.isConstruct]

/-- A run of force-free `detect` calls from a memoized state reuses the
memoized instance throughout and constructs nothing. -/
lemma helper_run_memo (fpd : Nat) :
    ∀ (cs : List DetectCall) (st : DetectState), st.detector = some fpd →
      (∀ x ∈ cs, x.forceNewDetector = false) →
      (detectRun st cs).1 = st ∧
      (∀ o ∈ (detectRun st cs).2, o.used = fpd ∧ o.constructCount = 0) := by
  intro cs
  induction cs with
  | nil =>
    intro st hd hall
    simp [detectRun]
  | cons c cs ih =>
    intro st hd hall
    have hf : c.forceNewDetector = false := hall c (by simp)
    obtain ⟨hu, hst, hcc⟩ := helper_detect_memo c st fpd hd hf
    have ihh := ih (detect c st).state (by rw [hst]; exact hd)
      (fun x hx => hall x (by simp [hx]))
    simp only [detectRun]
    constructor
    · rw [ihh.1, hst]
    · intro o ho
      simp only [List.mem_cons] at ho
      rcases ho with rfl | ho
      · exact ⟨hu, hcc⟩
      · exact ihh.2 o ho

/-- Claim C6: across every sequence of `detect` calls with no
`forceNewDetector`, at most one detector instance is constructed — the
first call constructs it and every later call reuses the memoized
instance — while a call with `forceNewDetector` constructs a fresh
instance. -/
theorem detector_memoized (calls : List DetectCall) (c₀ : DetectCall)
    (st : DetectState)
    (hall : ∀ x ∈ calls, x.forceNewDetector = false)
    (hf : c₀.forceNewDetector = true) :
    (((detectRun detectInit calls).2.map DetectOut.constructCount).sum ≤ 1) ∧
    (calls ≠ [] →
      ((detectRun detectInit calls).2.map DetectOut.constructCount).head? =
        some 1) ∧
    (∀ o ∈ (detectRun detectInit calls).2, o.used = 0) ∧
    ((detect c₀ st).used = st.nextId ∧
     (detect c₀ st).state.detector = some st.nextId ∧
     DetectEffect.construct st.nextId ∈ (detect c₀ st).effects) := by
  have hfresh := helper_detect_fresh c₀ st (Or.inr hf)
  rcases hcalls : calls with _ | ⟨c, cs⟩
  · refine ⟨by simp [detectRun], by simp, by simp [detectRun], ?_⟩
    exact ⟨hfresh.1, by rw [hfresh.2.1], hfresh.2.2.2⟩
  · subst hcalls
    have h0 := helper_detect_fresh c detectInit (Or.inl rfl)
    have hrun := helper_run_memo 0 cs (detect c detectInit).state
      (by rw [h0.2.1]; rfl) (fun x hx => hall x (by simp [hx]))
    have hsum : ((detectRun (detect c detectInit).state cs).2.map
        DetectOut.constructCount).sum = 0 := by
      apply List.sum_eq_zero
      intro x hx
      simp only [List.mem_map] at hx
      obtain ⟨o, ho, rfl⟩ := hx
      exact (hrun.2 o ho).2
    refine ⟨?_, ?_, ?_, ?_⟩
    · simp only [detectRun, List.map_cons, List.sum_cons, h0.2.2.1, hsum]
      omega
    · intro hne
      simp only [detectRun, List.map_cons, List.head?_cons, h0.2.2.1]
    · intro o ho
      simp only [detectRun, List.mem_cons] at ho
      rcases ho with rfl | ho
      · exact h0.1
      · exact (hrun.2 o ho).1
    · exact ⟨hfresh.1, by rw [hfresh.2.1], hfresh.2.2.2⟩

/-- A `detect` call with `forceNewDetector` set. -/
def demoForceCall : DetectCall :=
  { contextIsWindow := true, nativeAvailable := true,
    forceNewDetector := true, polyfillBase := "", hasIsReady := false,
    outcome := .ok [11] }

/-- A plain `detect` call. -/
def demoPlainCall : DetectCall :=
  { contextIsWindow := true, nativeAvailable := true,
    forceNewDetector := false, polyfillBase := "", hasIsReady := false,
    outcome := .ok [11] }

/-- Witness for C6 on a concrete three-call run plus a forced call. -/
theorem detector_memoized_witness :
    (∀ x ∈ [demoPlainCall, demoPlainCall, demoPlainCall],
       x.forceNewDetector = false) ∧
    demoForceCall.forceNewDetector = true ∧
    ((((detectRun detectInit
          [demoPlainCall, demoPlainCall, demoPlainCall]).2.map
        DetectOut.constructCount).sum ≤ 1) ∧
     ([demoPlainCall, demoPlainCall, demoPlainCall] ≠
        ([] : List DetectCall) →
       ((detectRun detectInit
           [demoPlainCall, demoPlainCall, demoPlainCall]).2.map
         DetectOut.constructCount).head? = some 1) ∧
     (∀ o ∈ (detectRun detectInit
         [demoPlainCall, demoPlainCall, demoPlainCall]).2, o.used = 0) ∧
     ((detect demoForceCall detectInit).used = detectInit.nextId ∧
      (detect demoForceCall detectInit).state.detector =
        some detectInit.nextId ∧
      DetectEffect.construct detectInit.nextId ∈
        (detect demoForceCall detectInit).effects)) :=
  And.intro (by decide) (And.intro rfl
    (detector_memoized [demoPlainCall, demoPlainCall, demoPlainCall]
      demoForceCall detectInit (by decide) rfl))
